import Mathlib

/-!
Verification of the chartsync program (src/chartsync.py): a shallow
embedding of its cache, chart-source and renderer logic, with theorems
settling the specified properties.

Conventions of the embedding:
* Python values flowing through the JSON cache are JSON-serializable
  structures; they are modelled by the inductive type `Json`, where
  `Json.null` is Python's `None` (json round-trips `None` and `null`).
* The filesystem state of a cache directory is an association list from
  file name (cache key) to the decoded JSON content of that file.
* Python functions that can raise are modelled with `Except`/`Option`.
-/

/-- JSON-serializable values; `Json.null` models Python `None`. -/
inductive Json where
  | null
  | bool (b : Bool)
  | num (n : Int)
  | str (s : String)
  | arr (elems : List Json)
  | obj (fields : List (String × Json))

/-- The `value is None` test of `JsonCache.auto_fetch`. -/
def Json.isNull : Json → Bool
  | .null => true
  | _ => false

/-- Contents of a cache root directory: one decoded JSON value per
present file name. -/
def CacheState : Type := List (String × Json)

namespace JsonCache

/-- `JsonCache.get`: read the file `root / key`; a missing file
(`FileNotFoundError`) yields Python `None`, i.e. `Json.null`. The
successful-read result is the decoded JSON content (which is itself
`Json.null` when the file stores `null`). -/
def get (st : CacheState) (key : String) : Json :=
  match List.lookup key st with
  | some v => v
  | none => Json.null

/-- `JsonCache.put`: write `value` to the file `root / key`,
overwriting any previous content (`marshal` then `unmarshal` round-trip
to the same JSON value, so the stored decoded content is `value`). -/
def put (st : CacheState) (key : String) (value : Json) : CacheState :=
  (key, value) :: st

/-- `JsonCache.auto_fetch` for a fetch function that cannot raise.
Returns the produced value, the resulting cache state, and the number
of times `fetch` was invoked during this call (instrumentation used to
state the memoization guarantee; the source performs the same steps). -/
def auto_fetch {α : Type} (make_key : α → String) (fetch : α → Json)
    (st : CacheState) (args : α) : Json × CacheState × Nat :=
  let key := make_key args
  let value := get st key
  if value.isNull then
    let v := fetch args
    (v, put st key v, 1)
  else
    (value, st, 0)

/-- `JsonCache.auto_fetch` for a fetch function that may raise: the
exception propagates before `put` runs, so the cache state is returned
unchanged on error. -/
def auto_fetchE {α : Type} (make_key : α → String)
    (fetch : α → Except String Json) (st : CacheState) (args : α) :
    Except String Json × CacheState :=
  let key := make_key args
  let value := get st key
  if value.isNull then
    match fetch args with
    | .error e => (.error e, st)
    | .ok v => (.ok v, put st key v)
  else
    (.ok value, st)

/-- Python errors that a cache read can surface. -/
inductive PyError where
  | fileNotFound
  | permissionError
  | jsonDecodeError
  deriving DecidableEq

/-- `JsonCache.get` with a fallible filesystem: `readFile key` models
`open(root / key)` followed by `json.load`, i.e. the body of the `try`
block; its error is the exception raised. Only `FileNotFoundError` is
caught and converted to Python `None` (`Json.null`); every other
exception propagates. -/
def getE (readFile : String → Except PyError Json) (key : String) :
    Except PyError Json :=
  match readFile key with
  | .ok v => .ok v
  | .error .fileNotFound => .ok Json.null
  | .error e => .error e

end JsonCache

/-- Python `str.strip()`: remove leading and trailing whitespace. -/
def py_strip (s : String) : String :=
  String.mk
    (((s.data.dropWhile Char.isWhitespace).reverse.dropWhile
        Char.isWhitespace).reverse)

/-- Python `str.startswith(prefix)`. -/
def py_startswith (s : String) (pre : String) : Bool :=
  pre.data.isPrefixOf s.data

/-- `strip_prefix(s, prefix)`: drop `prefix` from the front of `s` when
`s` starts with it, else return `s` unchanged
(`s[len(prefix):] if s.startswith(prefix) else s`). -/
def strip_prefix (s : String) (pre : String) : String :=
  if py_startswith s pre then String.mk (s.data.drop pre.length) else s

/-! ## Chart data model

The dictionaries produced by `Billboard.parse_chart` /
`Billboard.position_data_from_node`, as structures with the same field
names. -/

/-- The `result["chart"]` dict: `name` and `slug` from the schema.org
article, `date` from the date picker. -/
structure ChartData where
  name : String
  slug : String
  date : String

/-- The `"artist"` sub-dict of a position. -/
structure Artist where
  name : String

/-- The `"song"` sub-dict of a position. -/
structure Song where
  title : String

/-- The `"position"` sub-dict of a position. -/
structure PositionInfo where
  rank : Int
  peak_rank : Int
  previous_rank : Option Int
  chart_weeks : Int

/-- One element of `result["positions"]`. -/
structure Position where
  artist : Artist
  song : Song
  position : PositionInfo

/-- The full result dict of `Billboard.parse_chart`:
`{"chart": ..., "positions": ...}`. -/
structure ChartResult where
  chart : ChartData
  positions : List Position

/-- JSON encoding of a `PositionInfo` (the dict marshalled to cache). -/
def PositionInfo.toJson (p : PositionInfo) : Json :=
  Json.obj
    [("rank", Json.num p.rank),
     ("peak_rank", Json.num p.peak_rank),
     ("previous_rank",
       match p.previous_rank with
       | some n => Json.num n
       | none => Json.null),
     ("chart_weeks", Json.num p.chart_weeks)]

/-- JSON encoding of a `Position` dict. -/
def Position.toJson (p : Position) : Json :=
  Json.obj
    [("artist", Json.obj [("name", Json.str p.artist.name)]),
     ("song", Json.obj [("title", Json.str p.song.title)]),
     ("position", p.position.toJson)]

/-- JSON encoding of a `ChartResult` dict as written to the cache. -/
def ChartResult.toJson (r : ChartResult) : Json :=
  Json.obj
    [("chart", Json.obj
        [("name", Json.str r.chart.name),
         ("slug", Json.str r.chart.slug),
         ("date", Json.str r.chart.date)]),
     ("positions", Json.arr (r.positions.map Position.toJson))]

namespace Billboard

/-- `Billboard.chart_key(chart, date) = f"{chart}-{date}"`. -/
def chart_key (chart : String) (date : String) : String :=
  chart ++ "-" ++ date

/-- `Billboard.request_chart` after the HTTP fetch succeeded:
`parse_result` is the value `parse_chart(response.text)` produced for
this page; the three `assert` statements run in source order, and a
failing assert raises (`Except.error`). -/
def request_chart (parse_result : ChartResult) (chart : String)
    (date : String) : Except String ChartResult :=
  if parse_result.chart.slug = chart then
    if parse_result.chart.date = date then
      if parse_result.positions.isEmpty then
        .error "AssertionError: result[positions]"
      else
        .ok parse_result
    else .error "AssertionError: result[chart][date] == date"
  else .error "AssertionError: result[chart][slug] == chart"

/-- `Billboard.get_chart = chart_cache.make_auto_fetch(chart_key,
request_chart)`: the memoized operation, over a cache state.
`parse_result` is the extraction produced for the page served at the
requested URL. The fetched `ChartResult` is marshalled to JSON by the
cache `put`. -/
def get_chart (parse_result : ChartResult) (st : CacheState)
    (chart : String) (date : String) : Except String Json × CacheState :=
  JsonCache.auto_fetchE (fun p => chart_key p.1 p.2)
    (fun p => (request_chart parse_result p.1 p.2).map ChartResult.toJson)
    st (chart, date)

end Billboard

/-! ## Integer parsing (`int(text)`) -/

/-- Value of a nonempty all-digit string, else `none`. -/
def digits_to_nat (cs : List Char) : Option Nat :=
  if cs ≠ [] ∧ cs.all Char.isDigit then
    some (cs.foldl (fun acc c => acc * 10 + (c.toNat - '0'.toNat)) 0)
  else none

/-- Python `int(s)` over a decimal string literal: surrounding
whitespace is stripped, an optional single sign is allowed, the rest
must be digits; `none` models the `ValueError` raised otherwise.
(Underscore digit separators, accepted by CPython, do not occur in
scraped rank text and are not modelled.) -/
def py_int (s : String) : Option Int :=
  match (py_strip s).data with
  | '-' :: rest => (digits_to_nat rest).map (fun n => -(n : Int))
  | '+' :: rest => (digits_to_nat rest).map (fun n => (n : Int))
  | cs => (digits_to_nat cs).map (fun n => (n : Int))

/-! ## Extraction of one result row -/

/-- The texts `Billboard.position_data_from_node` reads from one
`o-chart-results-list-row-container` node, after the fixed positional
sub-element lookups: `row_item_nodes[0].span.text`,
`title_node.span.text`, `title_node.h3.text`, and the texts of items
6, 7 and 8. -/
structure RowNode where
  rank_text : String
  artist_text : String
  title_text : String
  previous_rank_text : String
  peak_rank_text : String
  chart_weeks_text : String

/-- `Billboard.position_data_from_node`: `int(previous_rank_node.text)`
is wrapped in `try/except ValueError` and recovered to `None`; the
other three `int(...)` calls are unguarded, so their `ValueError`
propagates (`Except.error`). The artist and song texts are
`.strip()`ped. -/
def Billboard.position_data_from_node (node : RowNode) :
    Except String Position :=
  let previous_rank := py_int node.previous_rank_text
  match py_int node.rank_text, py_int node.peak_rank_text,
      py_int node.chart_weeks_text with
  | some rank, some peak_rank, some chart_weeks =>
      .ok
        { artist := ⟨py_strip node.artist_text⟩
          song := ⟨py_strip node.title_text⟩
          position :=
            { rank := rank
              peak_rank := peak_rank
              previous_rank := previous_rank
              chart_weeks := chart_weeks } }
  | _, _, _ => .error "ValueError: invalid literal for int"

/-! ## Renderer -/

namespace Printer

/-- `Printer.POSITION_LIMIT`. -/
def POSITION_LIMIT : Nat := 10

/-- `Printer.compare_ranks(current, previous)`: `None` when there is no
previous rank, else `1` / `-1` / `0` for current below / above / equal
to previous. -/
def compare_ranks (current : Int) (previous : Option Int) : Option Int :=
  match previous with
  | none => none
  | some p =>
    if current < p then some 1
    else if current > p then some (-1)
    else some 0

/-- The dict `{1: "^   ", 0: " -  ", -1: "  v ", None: "   *"}` indexed
in `print_chart_position`; a key outside the table is a `KeyError`. -/
def MOVE_TABLE : List (Option Int × String) :=
  [(some 1, "^   "), (some 0, " -  "), (some (-1), "  v "), (none, "   *")]

/-- Python `str.format` right-alignment to width `w` (format spec
`{:wd}`): pad with spaces on the left, never truncate. -/
def pad_left (s : String) (w : Nat) : String :=
  String.mk (List.replicate (w - s.length) ' ') ++ s

/-- Python `str.format` left-alignment to width `w` (format spec
`{:ws}`): pad with spaces on the right, never truncate. -/
def pad_right (s : String) (w : Nat) : String :=
  s ++ String.mk (List.replicate (w - s.length) ' ')

/-- `Printer.print_chart_position` as the line it prints; `none` models
the `KeyError` of an out-of-table comparison result. The `chart_date`
argument is accepted and unused, as in the source. -/
def print_chart_position (position : Position) (chart_date : String) :
    Option String :=
  let rank := position.position.rank
  let previous_rank := position.position.previous_rank
  let compare := compare_ranks rank previous_rank
  (List.lookup compare MOVE_TABLE).map fun move =>
    let name := position.song.title ++ " - " ++ position.artist.name
    pad_left (toString rank) 2 ++ " " ++ pad_right move 4 ++ " " ++
      pad_right name 50

/-- `Printer.print_chart_header` as the line it prints. -/
def print_chart_header (chart : ChartResult) : String :=
  chart.chart.name ++ " for " ++ chart.chart.date

/-- The `for position in ...` loop of `Printer.chart`: print each
position's line in sequence order, aborting if a line raises. -/
def chart_lines (date : String) : List Position → Option (List String)
  | [] => some []
  | position :: rest =>
    match print_chart_position position date, chart_lines date rest with
    | some line, some lines => some (line :: lines)
    | _, _ => none

/-- `Printer.chart` as the ordered list of lines it prints: the header,
then one line per position of `chart["positions"][:POSITION_LIMIT]` in
sequence order. -/
def chart (c : ChartResult) : Option (List String) :=
  let date := c.chart.date
  (chart_lines date (c.positions.take POSITION_LIMIT)).map
    (fun lines => print_chart_header c :: lines)

end Printer

/-! ## Variant B field projection

Only the helper `strip_prefix` of the embedded-JSON extraction
strategy is present under src/. -/

/-- Modelled from the spec: the Variant B (embedded-JSON strategy)
per-record projection, absent from src/, "projects a fixed allow-list
of named fields into the artist/song/position/history sub-structures";
"a field absent from the source record maps to `null`, not an omitted
key". Reading one allow-listed field from a per-position JSON record. -/
def project_field (record : List (String × Json)) (field : String) : Json :=
  match List.lookup field record with
  | some v => v
  | none => Json.null

/-- Modelled from the spec: Variant B, absent from src/, produces one
normalized sub-structure by projecting the allow-listed `fields` of
`record`, "stripping known prefixes (e.g. `artist_`, `title_`) from
field names to produce the normalized key names" via the source's
`strip_prefix`. -/
def project_fields (record : List (String × Json)) (pre : String)
    (fields : List String) : List (String × Json) :=
  fields.map (fun f => ( strip_prefix f pre, project_field record f))

/-! ## Sample inputs (used by witness statements) -/

/-- A well-formed position. -/
def samplePosition : Position :=
  { artist := ⟨"Some Artist"⟩
    song := ⟨"Some Song"⟩
    position := { rank := 1, peak_rank := 1, previous_rank := none, chart_weeks := 1 } }

/-- A well-formed extraction result for chart `hot-100`, date
`2023-11-04`. -/
def sampleResult : ChartResult :=
  { chart := { name := "The Hot 100", slug := "hot-100", date := "2023-11-04" }
    positions := [samplePosition] }

/-- An extraction result with zero positions. -/
def sampleEmptyResult : ChartResult :=
  { chart := { name := "The Hot 100", slug := "hot-100", date := "2023-11-04" }
    positions := [] }

/-- A scraped result row whose previous-rank cell is the dash the site
shows for a new entry. -/
def sampleRowNode : RowNode :=
  { rank_text := "5"
    artist_text := " Some Artist "
    title_text := " Some Song "
    previous_rank_text := "-"
    peak_rank_text := "3"
    chart_weeks_text := "12" }

/-- The line `Printer.print_chart_position` prints, as a total
function: the movement string is resolved by the same comparison that
`compare_ranks` performs, avoiding the dict lookup (which never misses
on `compare_ranks` output — proved in `Printer.print_chart_position_eq`). -/
def position_line (position : Position) : String :=
  let rank := position.position.rank
  let move :=
    match position.position.previous_rank with
    | none => "   *"
    | some p =>
      if rank < p then "^   " else if rank > p then "  v " else " -  "
  let name := position.song.title ++ " - " ++ position.artist.name
  Printer.pad_left (toString rank) 2 ++ " " ++ Printer.pad_right move 4 ++
    " " ++ Printer.pad_right name 50

/-! ## Helper lemmas -/

theorem Json.isNull_eq_false {v : Json} (h : v ≠ Json.null) :
    v.isNull = false := by
  cases v <;> first | exact absurd rfl h | rfl

theorem JsonCache.get_put (st : CacheState) (key : String) (v : Json) :
    JsonCache.get (JsonCache.put st key v) key = v := by
  simp [JsonCache.get, JsonCache.put, List.lookup]

/-! ## Claims -/

/-- C1: for a fixed cache root and fixed arguments whose key is not yet
cached, calling `auto_fetch` twice invokes `fetch` exactly once, and
the second call returns a value equal to the first call's result,
provided the fetched value is a non-`None` JSON structure. -/
theorem auto_fetch_idempotent {α : Type} (make_key : α → String)
    (fetch : α → Json) (st : CacheState) (a : α)
    (hmiss : JsonCache.get st (make_key a) = Json.null)
    (hnn : fetch a ≠ Json.null) :
    (JsonCache.auto_fetch make_key fetch st a).2.2 +
        (JsonCache.auto_fetch make_key fetch
          (JsonCache.auto_fetch make_key fetch st a).2.1 a).2.2 = 1 ∧
      (JsonCache.auto_fetch make_key fetch
          (JsonCache.auto_fetch make_key fetch st a).2.1 a).1 =
        (JsonCache.auto_fetch make_key fetch st a).1 := by
  have h1 : JsonCache.auto_fetch make_key fetch st a =
      (fetch a, JsonCache.put st (make_key a) (fetch a), 1) := by
    simp [JsonCache.auto_fetch, hmiss, Json.isNull]
  have h2 : JsonCache.auto_fetch make_key fetch
      (JsonCache.put st (make_key a) (fetch a)) a =
      (fetch a, JsonCache.put st (make_key a) (fetch a), 0) := by
    simp [JsonCache.auto_fetch, JsonCache.get_put, Json.isNull_eq_false hnn]
  constructor <;> simp [h1, h2]

/-- C1 witness: a fetch returning `42` under key `"k"` on an empty
cache root. -/
theorem auto_fetch_idempotent_witness :
    (JsonCache.auto_fetch (fun _ : Unit => "k") (fun _ => Json.num 42)
        ([] : CacheState) ()).2.2 +
        (JsonCache.auto_fetch (fun _ : Unit => "k") (fun _ => Json.num 42)
          (JsonCache.auto_fetch (fun _ : Unit => "k") (fun _ => Json.num 42)
            ([] : CacheState) ()).2.1 ()).2.2 = 1 ∧
      (JsonCache.auto_fetch (fun _ : Unit => "k") (fun _ => Json.num 42)
          (JsonCache.auto_fetch (fun _ : Unit => "k") (fun _ => Json.num 42)
            ([] : CacheState) ()).2.1 ()).1 =
        (JsonCache.auto_fetch (fun _ : Unit => "k") (fun _ => Json.num 42)
          ([] : CacheState) ()).1 :=
  auto_fetch_idempotent (fun _ : Unit => "k") (fun _ => Json.num 42)
    ([] : CacheState) () rfl (by simp)

/-- C10: when `fetch` returns `None`, `auto_fetch` writes the value to
the cache (the entry becomes present, holding `null`), yet the next
call treats the entry as absent and invokes `fetch` again: the
fetch-at-most-once guarantee fails for `None`-valued fetches. -/
theorem auto_fetch_none_refetch {α : Type} (make_key : α → String)
    (fetch : α → Json) (st : CacheState) (a : α)
    (hmiss : JsonCache.get st (make_key a) = Json.null)
    (hnull : fetch a = Json.null) :
    (JsonCache.auto_fetch make_key fetch st a).2.2 = 1 ∧
      List.lookup (make_key a)
        (JsonCache.auto_fetch make_key fetch st a).2.1 = some Json.null ∧
      (JsonCache.auto_fetch make_key fetch
        (JsonCache.auto_fetch make_key fetch st a).2.1 a).2.2 = 1 := by
  have h1 : JsonCache.auto_fetch make_key fetch st a =
      (Json.null, JsonCache.put st (make_key a) Json.null, 1) := by
    simp [JsonCache.auto_fetch, hmiss, Json.isNull, hnull]
  refine ⟨by simp [h1], by simp [h1, JsonCache.put, List.lookup], ?_⟩
  rw [h1]
  simp [JsonCache.auto_fetch, JsonCache.get_put, Json.isNull, hnull]

/-- C10 witness: a fetch returning `None` under key `"k"` on an empty
cache root is re-invoked by the second call even though the entry was
written. -/
theorem auto_fetch_none_refetch_witness :
    (JsonCache.auto_fetch (fun _ : Unit => "k") (fun _ => Json.null)
        ([] : CacheState) ()).2.2 = 1 ∧
      List.lookup "k"
        (JsonCache.auto_fetch (fun _ : Unit => "k") (fun _ => Json.null)
          ([] : CacheState) ()).2.1 = some Json.null ∧
      (JsonCache.auto_fetch (fun _ : Unit => "k") (fun _ => Json.null)
        (JsonCache.auto_fetch (fun _ : Unit => "k") (fun _ => Json.null)
          ([] : CacheState) ()).2.1 ()).2.2 = 1 :=
  auto_fetch_none_refetch (fun _ : Unit => "k") (fun _ => Json.null)
    ([] : CacheState) () rfl rfl

/-- C5: `compare_ranks` yields the up code (`1`, arrow `"^   "`) when
current < previous, the down code (`-1`, `"  v "`) when current >
previous, the flat code (`0`, `" -  "`) when equal, and the new code
(`None`, `"   *"`) when there is no previous rank; in particular at
`(5,10)`, `(10,5)`, `(5,5)` and `(5,None)`. -/
theorem compare_ranks_movement :
    (∀ current : Int, Printer.compare_ranks current none = none) ∧
    (∀ current p : Int,
      Printer.compare_ranks current (some p) =
        if current < p then some 1
        else if current > p then some (-1) else some 0) ∧
    Printer.compare_ranks 5 (some 10) = some 1 ∧
    Printer.compare_ranks 10 (some 5) = some (-1) ∧
    Printer.compare_ranks 5 (some 5) = some 0 ∧
    Printer.compare_ranks 5 none = none ∧
    List.lookup (some 1) Printer.MOVE_TABLE = some "^   " ∧
    List.lookup (some (-1)) Printer.MOVE_TABLE = some "  v " ∧
    List.lookup (some 0) Printer.MOVE_TABLE = some " -  " ∧
    List.lookup (none : Option Int) Printer.MOVE_TABLE = some "   *" :=
  ⟨fun _ => rfl, fun _ _ => rfl, by decide, by decide, by decide, by decide,
    by decide, by decide, by decide, by decide⟩

theorem append_cons_sep_inj :
    ∀ (l1 l2 r1 r2 : List Char), '-' ∉ l1 → '-' ∉ l2 →
      l1 ++ '-' :: r1 = l2 ++ '-' :: r2 → l1 = l2 ∧ r1 = r2 := by
  intro l1
  induction l1 with
  | nil =>
    intro l2 r1 r2 _ h2 heq
    cases l2 with
    | nil => simpa using heq
    | cons b l2 =>
      simp only [List.nil_append, List.cons_append, List.cons.injEq] at heq
      obtain ⟨hb, -⟩ := heq
      subst hb
      exact absurd (List.mem_cons_self _ _) h2
  | cons a l1 ih =>
    intro l2 r1 r2 h1 h2 heq
    cases l2 with
    | nil =>
      simp only [List.nil_append, List.cons_append, List.cons.injEq] at heq
      obtain ⟨ha, -⟩ := heq
      subst ha
      exact absurd (List.mem_cons_self _ _) h1
    | cons b l2 =>
      simp only [List.cons_append, List.cons.injEq] at heq
      obtain ⟨hab, heq'⟩ := heq
      have h1' : '-' ∉ l1 := fun h => h1 (List.mem_cons_of_mem _ h)
      have h2' : '-' ∉ l2 := fun h => h2 (List.mem_cons_of_mem _ h)
      obtain ⟨hl, hr⟩ := ih l2 r1 r2 h1' h2' heq'
      exact ⟨by rw [hab, hl], hr⟩

/-- C2 counterexample: the key `"a-b-c"` is produced both by the pair
`("a-b", "c")` and by the distinct pair `("a", "b-c")`, so `chart_key`
is not injective on all pairs. -/
theorem chart_key_not_injective :
    Billboard.chart_key "a-b" "c" = Billboard.chart_key "a" "b-c" ∧
      (("a-b", "c") : String × String) ≠ ("a", "b-c") :=
  ⟨by decide, by decide⟩

/-- C2 (amended): `chart_key` concatenates identifier, `"-"` and date,
and is injective on pairs whose identifier contains no `'-'`: equal
keys force equal pairs. -/
theorem chart_key_injective_of_dash_free (c1 d1 c2 d2 : String)
    (h1 : '-' ∉ c1.data) (h2 : '-' ∉ c2.data)
    (heq : Billboard.chart_key c1 d1 = Billboard.chart_key c2 d2) :
    c1 = c2 ∧ d1 = d2 := by
  have hdash : ("-" : String).data = ['-'] := rfl
  have hd : c1.data ++ '-' :: d1.data = c2.data ++ '-' :: d2.data := by
    have h := congrArg String.data heq
    simp only [Billboard.chart_key, String.data_append, hdash,
      List.append_assoc, List.singleton_append] at h
    exact h
  obtain ⟨hc, hdd⟩ := append_cons_sep_inj c1.data c2.data d1.data d2.data h1 h2 hd
  exact ⟨String.ext hc, String.ext hdd⟩

/-- C2 witness: dash-free identifier `"radio"`, date `"2023"`. -/
theorem chart_key_injective_witness :
    ("radio" : String) = "radio" ∧ ("2023" : String) = "2023" :=
  chart_key_injective_of_dash_free "radio" "2023" "radio" "2023" (by decide)
    (by decide) rfl

/-- C3: when the extracted chart's slug or date differs from the
requested identifier or date, `request_chart` raises an assertion
error, and the memoized `get_chart` surfaces that error with the cache
state unchanged (nothing is written for that key). -/
theorem request_chart_identity_mismatch (pr : ChartResult)
    (chart date : String) (st : CacheState)
    (hmiss : JsonCache.get st (Billboard.chart_key chart date) = Json.null)
    (hmm : pr.chart.slug ≠ chart ∨ pr.chart.date ≠ date) :
    ∃ e, Billboard.request_chart pr chart date = .error e ∧
      Billboard.get_chart pr st chart date = (.error e, st) := by
  have hreq : ∃ e, Billboard.request_chart pr chart date = .error e := by
    by_cases hs : pr.chart.slug = chart
    · have hd := hmm.resolve_left (not_not_intro hs)
      exact ⟨"AssertionError: result[chart][date] == date",
        by simp [Billboard.request_chart, hs, hd]⟩
    · exact ⟨"AssertionError: result[chart][slug] == chart",
        by simp [Billboard.request_chart, hs]⟩
  obtain ⟨e, he⟩ := hreq
  refine ⟨e, he, ?_⟩
  simp [Billboard.get_chart, JsonCache.auto_fetchE, hmiss, Json.isNull, he,
    Except.map]

/-- C3 witness: the page for `2023-11-04` requested as `2024-01-06` on
an empty cache root. -/
theorem request_chart_identity_mismatch_witness :
    ∃ e, Billboard.request_chart sampleResult "hot-100" "2024-01-06" =
        .error e ∧
      Billboard.get_chart sampleResult ([] : CacheState) "hot-100"
          "2024-01-06" = (.error e, ([] : CacheState)) :=
  request_chart_identity_mismatch sampleResult "hot-100" "2024-01-06"
    ([] : CacheState) rfl (Or.inr (by decide))

/-- C4: when extraction produces a `ChartResult` with zero positions,
`request_chart` raises an assertion error; the memoized `get_chart`
surfaces the error and the cache state is unchanged, so the empty
result is neither returned as a value nor written to the cache. -/
theorem request_chart_empty_positions (pr : ChartResult)
    (chart date : String) (st : CacheState)
    (hmiss : JsonCache.get st (Billboard.chart_key chart date) = Json.null)
    (hemp : pr.positions = []) :
    ∃ e, Billboard.request_chart pr chart date = .error e ∧
      Billboard.get_chart pr st chart date = (.error e, st) := by
  have hreq : ∃ e, Billboard.request_chart pr chart date = .error e := by
    by_cases hs : pr.chart.slug = chart
    · by_cases hd : pr.chart.date = date
      · exact ⟨"AssertionError: result[positions]",
          by simp [Billboard.request_chart, hs, hd, hemp]⟩
      · exact ⟨"AssertionError: result[chart][date] == date",
          by simp [Billboard.request_chart, hs, hd]⟩
    · exact ⟨"AssertionError: result[chart][slug] == chart",
        by simp [Billboard.request_chart, hs]⟩
  obtain ⟨e, he⟩ := hreq
  refine ⟨e, he, ?_⟩
  simp [Billboard.get_chart, JsonCache.auto_fetchE, hmiss, Json.isNull, he,
    Except.map]

/-- C4 witness: an extraction with zero positions for the requested
chart and date, on an empty cache root. -/
theorem request_chart_empty_positions_witness :
    ∃ e, Billboard.request_chart sampleEmptyResult "hot-100" "2023-11-04" =
        .error e ∧
      Billboard.get_chart sampleEmptyResult ([] : CacheState) "hot-100"
          "2023-11-04" = (.error e, ([] : CacheState)) :=
  request_chart_empty_positions sampleEmptyResult "hot-100" "2023-11-04"
    ([] : CacheState) rfl rfl

theorem print_chart_position_eq (p : Position) (d : String) :
    Printer.print_chart_position p d = some (position_line p) := by
  have l1 : List.lookup (some 1 : Option Int) Printer.MOVE_TABLE =
      some "^   " := by decide
  have l2 : List.lookup (some (-1) : Option Int) Printer.MOVE_TABLE =
      some "  v " := by decide
  have l3 : List.lookup (some 0 : Option Int) Printer.MOVE_TABLE =
      some " -  " := by decide
  have l4 : List.lookup (none : Option Int) Printer.MOVE_TABLE =
      some "   *" := by decide
  cases hpr : p.position.previous_rank with
  | none =>
    simp [Printer.print_chart_position, position_line, Printer.compare_ranks,
      hpr, l4]
  | some q =>
    by_cases hlt : p.position.rank < q
    · simp [Printer.print_chart_position, position_line,
        Printer.compare_ranks, hpr, hlt, l1]
    · by_cases hgt : p.position.rank > q
      · simp [Printer.print_chart_position, position_line,
          Printer.compare_ranks, hpr, hlt, hgt, l2]
      · simp [Printer.print_chart_position, position_line,
          Printer.compare_ranks, hpr, hlt, hgt, l3]

theorem chart_lines_eq (d : String) (l : List Position) :
    Printer.chart_lines d l = some (l.map position_line) := by
  induction l with
  | nil => rfl
  | cons p l ih => simp [Printer.chart_lines, print_chart_position_eq, ih]

/-- C6: rendering a chart produces the header line followed by the
lines of the first `POSITION_LIMIT = 10` positions in sequence order
(all positions when fewer than 10): exactly
`1 + min 10 (number of positions)` lines, with no re-sorting. -/
theorem printer_chart_display_bound (c : ChartResult) :
    Printer.chart c =
      some (Printer.print_chart_header c ::
        (c.positions.take Printer.POSITION_LIMIT).map position_line) ∧
      (Printer.chart c).map List.length =
        some (1 + min Printer.POSITION_LIMIT c.positions.length) := by
  have h : Printer.chart c =
      some (Printer.print_chart_header c ::
        (c.positions.take Printer.POSITION_LIMIT).map position_line) := by
    simp [Printer.chart, chart_lines_eq]
  refine ⟨h, ?_⟩
  rw [h]
  simp [List.length_take, Nat.add_comm]

/-- C7: `get` on a missing cache entry returns Python `None` rather
than raising; a successful read returns the decoded value; any other
read failure (permission error, corrupt content) propagates as that
error, never converted to an absent result. -/
theorem get_absent_vs_error
    (readFile : String → Except JsonCache.PyError Json) (key : String) :
    (readFile key = .error .fileNotFound →
      JsonCache.getE readFile key = .ok Json.null) ∧
    (∀ v, readFile key = .ok v → JsonCache.getE readFile key = .ok v) ∧
    (∀ e, e ≠ JsonCache.PyError.fileNotFound → readFile key = .error e →
      JsonCache.getE readFile key = .error e) := by
  refine ⟨fun h => by simp [JsonCache.getE, h],
    fun v h => by simp [JsonCache.getE, h], fun e he h => ?_⟩
  cases e
  · exact absurd rfl he
  · simp [JsonCache.getE, h]
  · simp [JsonCache.getE, h]

/-- C7 witness: a missing entry yields `None`; a present entry yields
its content; a permission error and a JSON decode error both
propagate. -/
theorem get_absent_vs_error_witness :
    JsonCache.getE (fun _ => .error .fileNotFound) "k" = .ok Json.null ∧
      JsonCache.getE (fun _ => .ok (Json.num 1)) "k" = .ok (Json.num 1) ∧
      JsonCache.getE (fun _ => .error .permissionError) "k" =
        .error JsonCache.PyError.permissionError ∧
      JsonCache.getE (fun _ => .error .jsonDecodeError) "k" =
        .error JsonCache.PyError.jsonDecodeError :=
  ⟨(get_absent_vs_error (fun _ => .error .fileNotFound) "k").1 rfl,
    (get_absent_vs_error (fun _ => .ok (Json.num 1)) "k").2.1 _ rfl,
    (get_absent_vs_error (fun _ => .error .permissionError) "k").2.2 _
      (by decide) rfl,
    (get_absent_vs_error (fun _ => .error .jsonDecodeError) "k").2.2 _
      (by decide) rfl⟩

/-- C8: when the required integer fields of a result row parse, the
row extracts successfully and its `previous_rank` is `py_int` of the
previous-rank text: the absent value `none` when that text does not
parse as an integer (never an error), the parsed integer when it
does. -/
theorem previous_rank_parse_recovery (node : RowNode)
    (hr : (py_int node.rank_text).isSome = true)
    (hp : (py_int node.peak_rank_text).isSome = true)
    (hw : (py_int node.chart_weeks_text).isSome = true) :
    ∃ pos, Billboard.position_data_from_node node = .ok pos ∧
      pos.position.previous_rank = py_int node.previous_rank_text := by
  obtain ⟨r, hr'⟩ := Option.isSome_iff_exists.mp hr
  obtain ⟨p, hp'⟩ := Option.isSome_iff_exists.mp hp
  obtain ⟨w, hw'⟩ := Option.isSome_iff_exists.mp hw
  refine ⟨{ artist := ⟨py_strip node.artist_text⟩
            song := ⟨py_strip node.title_text⟩
            position :=
              { rank := r, peak_rank := p
                previous_rank := py_int node.previous_rank_text
                chart_weeks := w } }, ?_, rfl⟩
  simp [Billboard.position_data_from_node, hr', hp', hw']

/-- C8 witness: a row whose previous-rank cell is `"-"` extracts with
`previous_rank = none` while `"-"` indeed fails integer parsing. -/
theorem previous_rank_parse_recovery_witness :
    (∃ pos, Billboard.position_data_from_node sampleRowNode = .ok pos ∧
      pos.position.previous_rank = py_int sampleRowNode.previous_rank_text) ∧
      py_int sampleRowNode.previous_rank_text = none :=
  ⟨previous_rank_parse_recovery sampleRowNode (by decide) (by decide)
      (by decide), by decide⟩

/-- C9: the Variant B projection maps a source field `artist_name = X`
to key `name = X` of the artist sub-structure by stripping the
`artist_` prefix, and maps a field absent from the source record to an
explicit `null` under its stripped name, not an omitted key. -/
theorem variant_b_prefix_stripping (r1 r2 : List (String × Json)) (x : Json)
    (h1 : List.lookup "artist_name" r1 = some x)
    (h2 : List.lookup "artist_name" r2 = none) :
    project_fields r1 "artist_" ["artist_name"] = [("name", x)] ∧
      project_fields r2 "artist_" ["artist_name"] = [("name", Json.null)] := by
  have hs : strip_prefix "artist_name" "artist_" = "name" := by decide
  constructor <;> simp [project_fields, project_field, h1, h2, hs]

/-- C9 witness: the record `{artist_name: "X"}` projects to
`{name: "X"}`; the empty record projects to `{name: null}`. -/
theorem variant_b_prefix_stripping_witness :
    project_fields [("artist_name", Json.str "X")] "artist_"
        ["artist_name"] = [("name", Json.str "X")] ∧
      project_fields [] "artist_" ["artist_name"] = [("name", Json.null)] :=
  variant_b_prefix_stripping [("artist_name", Json.str "X")] [] (Json.str "X")
    rfl rfl

